import Mathlib

/-!
Verification of the serd RDF library core against its design specification.

This file gives a shallow embedding, in Lean 4, of the parts of the C source
that the checked claims concern: the node model (src/node.c), the namespace
environment (src/env.c), the flat-syntax branch of the writer (src/writer.c),
the indexed statement store (src/model.c), and the chunked reader entry point
(src/reader.c).  C byte strings are modelled as lists of byte values
(natural numbers below 256); C structs become Lean structures; fallible
constructors return Option results, and status codes are an inductive type
mirroring SerdStatus.  Functions whose defining translation unit is absent
from the source tree (for example uri.c, iter.c and the zix btree library)
are modelled from the specification and marked as such in their doc comments.
-/

set_option linter.unusedVariables false

/-- A byte value (0 .. 255).  C strings are modelled as lists of bytes. -/
abbrev Byte := Nat

/-- UTF-8 encoding of a single Unicode code point, used only to write byte
lists for concrete test inputs conveniently from Lean string literals. -/
def utf8EncodeCp (c : Nat) : List Byte :=
  if c < 0x80 then [c]
  else if c < 0x800 then [0xC0 + c / 64, 0x80 + c % 64]
  else if c < 0x10000 then
    [0xE0 + c / 4096, 0x80 + c / 64 % 64, 0x80 + c % 64]
  else
    [0xF0 + c / 262144, 0x80 + c / 4096 % 64, 0x80 + c / 64 % 64, 0x80 + c % 64]

/-- The UTF-8 bytes of a Lean string, as a list of byte values. -/
def strBytes (s : String) : List Byte :=
  (s.data.map (fun c => utf8EncodeCp c.toNat)).flatten

/-- Status codes, mirroring the SerdStatus enum of include/serd/serd.h. -/
inductive SerdStatus where
  | success      -- SERD_SUCCESS
  | failure      -- SERD_FAILURE (non-fatal)
  | errUnknown   -- SERD_ERR_UNKNOWN
  | errBadSyn    -- SERD_ERR_BAD_SYNTAX
  | errBadArg    -- SERD_ERR_BAD_ARG
  | errBadIter   -- SERD_ERR_BAD_ITER
  | errNotFound  -- SERD_ERR_NOT_FOUND
  | errIdClash   -- SERD_ERR_ID_CLASH
  | errBadCurie  -- SERD_ERR_BAD_CURIE
  | errInternal  -- SERD_ERR_INTERNAL
  | errOverflow  -- SERD_ERR_OVERFLOW
  | errInvalid   -- SERD_ERR_INVALID
  | errNoData    -- SERD_ERR_NO_DATA
  | errBadWrite  -- SERD_ERR_BAD_WRITE
deriving DecidableEq, Repr

/-- Node kinds, mirroring SerdNodeType (values 1 to 4) of serd.h. -/
inductive SerdNodeType where
  | literal  -- SERD_LITERAL = 1
  | uri      -- SERD_URI = 2
  | curie    -- SERD_CURIE = 3
  | blank    -- SERD_BLANK = 4
deriving DecidableEq, Repr

/-- The numeric value of a node type, as in the C enum; used by
serd_node_compare which orders nodes by their enum value first. -/
def SerdNodeType.val : SerdNodeType → Nat
  | .literal => 1
  | .uri => 2
  | .curie => 3
  | .blank => 4

/-- Node flags, mirroring the SerdNodeFlags bitset of serd.h
(SERD_HAS_NEWLINE, SERD_HAS_QUOTE, SERD_HAS_DATATYPE, SERD_HAS_LANGUAGE). -/
structure SerdNodeFlagsM where
  hasNewline : Bool
  hasQuote : Bool
  hasDatatype : Bool
  hasLanguage : Bool
deriving DecidableEq, Repr

/-- The all-clear flag set (a zeroed SerdNodeFlags). -/
def noFlags : SerdNodeFlagsM := ⟨false, false, false, false⟩

/-- A node (struct SerdNodeImpl plus its inline buffer and optional inline
meta node, from src/node.h and src/node.c).  The C layout stores the header,
the text bytes, and, when the HAS_DATATYPE or HAS_LANGUAGE flag is set, a
second node (the meta node) after the padded text; here the meta node is an
optional child.  The text is the byte content of the inline buffer
(n_bytes bytes, without the terminator or padding). -/
inductive SerdNode : Type where
  | mk : SerdNodeType → List Byte → SerdNodeFlagsM → Option SerdNode → SerdNode

/-- The kind of a node (serd_node_type). -/
def SerdNode.type : SerdNode → SerdNodeType
  | .mk t _ _ _ => t

/-- The text bytes of a node (serd_node_string / serd_node_length). -/
def SerdNode.text : SerdNode → List Byte
  | .mk _ x _ _ => x

/-- The flags of a node (serd_node_flags). -/
def SerdNode.flags : SerdNode → SerdNodeFlagsM
  | .mk _ _ f _ => f

/-- The inline meta node of a node, when it has one. -/
def SerdNode.meta : SerdNode → Option SerdNode
  | .mk _ _ _ m => m

/-- serd_node_maybe_get_meta_c of src/node.c: the meta node if the
HAS_LANGUAGE or HAS_DATATYPE flag is set, otherwise null. -/
def serdNodeMaybeMeta (n : SerdNode) : Option SerdNode :=
  if n.flags.hasLanguage || n.flags.hasDatatype then n.meta else none

/-- Structural (bitwise) equality of two node values, the content compared by
the memcmp in serd_node_equals: header fields, text, and meta recursively. -/
def nodeBEq : SerdNode → SerdNode → Bool
  | .mk t1 x1 f1 m1, .mk t2 x2 f2 m2 =>
    t1 = t2 && decide (x1 = x2) && f1 = f2 &&
      (match m1, m2 with
       | none, none => true
       | some a, some b => nodeBEq a b
       | _, _ => false)

/-- serd_node_equals of src/node.c lines 357 to 368: null equals only null,
and two nodes are equal when their total sizes agree and their bytes agree
(which for the value model is structural equality of type, text, flags and
meta). -/
def serd_node_equals (a b : Option SerdNode) : Bool :=
  match a, b with
  | none, none => true
  | some x, some y => nodeBEq x y
  | _, _ => false

/-- serd_node_copy of src/node.c lines 341 to 355: a byte-for-byte copy of
the whole node allocation, which in the value model is the value itself. -/
def serd_node_copy (n : SerdNode) : SerdNode := n

/-- strcmp over byte lists, normalised to -1, 0 or 1.  The terminating NUL of
the C string makes a strict prefix compare less than the longer string. -/
def lexCompare : List Byte → List Byte → Int
  | [], [] => 0
  | [], _ :: _ => -1
  | _ :: _, [] => 1
  | a :: as, b :: bs =>
    if a < b then -1 else if b < a then 1 else lexCompare as bs

/-- The body of serd_node_compare on two non-null nodes: compare the type
enum values, then the texts with strcmp, then the metas recursively (a
missing meta compares less than a present one, as a null pointer does). -/
def compareNode : SerdNode → SerdNode → Int
  | .mk t1 x1 _ m1, .mk t2 x2 _ m2 =>
    if t1.val ≠ t2.val then (if t1.val < t2.val then -1 else 1)
    else
      let c := lexCompare x1 x2
      if c ≠ 0 then c
      else
        match m1, m2 with
        | none, none => 0
        | none, some _ => -1
        | some _, none => 1
        | some a, some b => compareNode a b

/-- serd_node_compare of src/node.c lines 370 to 387, with the C null-pointer
cases: null compares equal to null and less than any node.  (The C fast path
returning 0 on pointer identity is subsumed by the value comparison.)
The meta arguments of the recursive call are serd_node_maybe_get_meta_c,
i.e. the metas guarded by the HAS_LANGUAGE / HAS_DATATYPE flags; nodes built
by the constructors set those flags exactly when a meta is present. -/
def serd_node_compare (a b : Option SerdNode) : Int :=
  match a, b with
  | none, none => 0
  | none, some _ => -1
  | some _, none => 1
  | some x, some y => compareNode x y

/-- The newline flag scan of serd_strlen / serd_substrlen (string.c, modelled
from the spec: flags are a pure function of the text recording whether it
contains a line break or a double quote).  SERD_HAS_NEWLINE is set by a
carriage return or line feed byte. -/
def scanFlags (s : List Byte) : SerdNodeFlagsM :=
  { hasNewline := s.any (fun b => b = 0x0A || b = 0x0D)
  , hasQuote := s.any (fun b => b = 0x22)
  , hasDatatype := false
  , hasLanguage := false }

/-- serd_new_simple_node of src/node.c lines 126 to 140: a blank, CURIE or
URI node with zeroed flags; other kinds are rejected. -/
def serd_new_simple_node (t : SerdNodeType) (s : List Byte) : Option SerdNode :=
  if t = .blank || t = .curie || t = .uri then
    some (.mk t s noFlags none)
  else
    none

/-- serd_new_string of src/node.c lines 142 to 156: a plain literal whose
flags come from scanning the text. -/
def serd_new_string (s : List Byte) : SerdNode :=
  .mk .literal s (scanFlags s) none

/-- serd_new_substring of src/node.c lines 158 to 171 (same as
serd_new_string in the value model, with the length given by the caller). -/
def serd_new_substring (s : List Byte) : SerdNode :=
  .mk .literal s (scanFlags s) none

/-- The URI of rdf:langString, as the bytes of NS_RDF "langString". -/
def nsRdfLangString : List Byte :=
  strBytes "http://www.w3.org/1999/02/22-rdf-syntax-ns#langString"

/-- serd_new_plain_literal_i of src/node.c lines 174 to 201: a literal with
the HAS_LANGUAGE flag and an inline language-tag meta node (kind LITERAL,
zero flags). -/
def serd_new_plain_literal_i (s : List Byte) (f : SerdNodeFlagsM)
    (lang : List Byte) : SerdNode :=
  .mk .literal s { f with hasLanguage := true }
    (some (.mk .literal lang noFlags none))

/-- serd_new_typed_literal_i of src/node.c lines 204 to 232: a literal with
the HAS_DATATYPE flag and an inline datatype meta node (kind URI, zero
flags). -/
def serd_new_typed_literal_i (s : List Byte) (f : SerdNodeFlagsM)
    (datatype : List Byte) : SerdNode :=
  .mk .literal s { f with hasDatatype := true }
    (some (.mk .uri datatype noFlags none))

/-- serd_new_literal of src/node.c lines 234 to 258: fails when both a
datatype and a language are given unless the datatype is rdf:langString;
otherwise builds a literal with the language meta (if a language is given),
else the datatype meta (if a datatype is given), else no meta.  The C null
string case does not arise in the value model. -/
def serd_new_literal (s : List Byte) (datatype : Option (List Byte))
    (lang : Option (List Byte)) : Option SerdNode :=
  if lang.isSome && datatype.isSome && datatype ≠ some nsRdfLangString then
    none
  else
    match lang with
    | some l => some (serd_new_plain_literal_i s (scanFlags s) l)
    | none =>
      match datatype with
      | some d => some (serd_new_typed_literal_i s (scanFlags s) d)
      | none => some (serd_new_substring s)

/-- serd_new_typed_literal of src/node.c lines 276 to 296: with a null
datatype behaves as serd_new_string; rejects a datatype whose text is
rdf:langString or whose kind is not URI; otherwise builds a typed literal
from the datatype node's text. -/
def serd_new_typed_literal (s : List Byte) (datatype : Option SerdNode) :
    Option SerdNode :=
  match datatype with
  | none => some (serd_new_string s)
  | some dt =>
    if dt.text = nsRdfLangString || dt.type ≠ .uri then none
    else some (serd_new_typed_literal_i s (scanFlags s) dt.text)

/-- serd_node_datatype of src/node.c lines 784 to 794: the meta node when the
HAS_DATATYPE flag is set, otherwise null. -/
def serd_node_datatype (n : SerdNode) : Option SerdNode :=
  if n.flags.hasDatatype then n.meta else none

/-- serd_node_language of src/node.c lines 796 to 806: the meta node when the
HAS_LANGUAGE flag is set, otherwise null. -/
def serd_node_language (n : SerdNode) : Option SerdNode :=
  if n.flags.hasLanguage then n.meta else none

/-- The static xsd:decimal datatype node (static_nodes.h), the default
datatype of serd_new_decimal. -/
def serd_xsd_decimal : SerdNode :=
  .mk .uri (strBytes "http://www.w3.org/2001/XMLSchema#decimal") noFlags none

/-- The classification data of an IEEE double: exactly the information that
fpclassify and signbit expose.  A finite nonzero value (normal or subnormal)
carries its sign and an index identifying its magnitude; the digit-extraction
collaborators below are functions of that index. -/
inductive SerdDouble where
  | nan
  | inf (neg : Bool)
  | zero (neg : Bool)
  | finite (neg : Bool) (mag : Nat)
deriving DecidableEq, Repr

/-- The result record of serd_decimals (decimal.c, absent from the source
tree): the number of significant digits written and the decimal exponent. -/
structure SerdDecimalCount where
  count : Nat
  expt : Int
deriving DecidableEq, Repr

/-- Location of the decimal point (the PointLocation enum of node.c). -/
inductive PointLoc where
  | after
  | before
  | between
deriving DecidableEq, Repr

/-- The SerdDecimalMetrics record of node.c. -/
structure DecimalMetrics where
  pointLoc : PointLoc
  nZerosBefore : Nat
  nZerosAfter : Nat
  nDigits : Nat
deriving DecidableEq, Repr

/-- get_decimal_metrics of src/node.c lines 598 to 619. -/
def get_decimal_metrics (c : SerdDecimalCount) : DecimalMetrics :=
  let expt2 : Int := if c.expt ≥ 0 then c.expt - (c.count : Int) + 1 else c.expt
  if c.expt ≥ (c.count : Int) - 1 then
    { pointLoc := .after
    , nZerosBefore := (c.expt - ((c.count : Int) - 1)).toNat
    , nZerosAfter := 1
    , nDigits := c.count }
  else if c.expt < 0 then
    { pointLoc := .before
    , nZerosBefore := 1
    , nZerosAfter := (-expt2 - 1).toNat
    , nDigits := c.count }
  else
    { pointLoc := .between, nZerosBefore := 0, nZerosAfter := 0
    , nDigits := c.count }

/-- serd_new_decimal of src/node.c lines 621 to 698.  The two collaborators
that inspect the bits of a finite double are passed in as functions of the
magnitude index: orderFn models the integer (int)(log10(fabs(d)) + 1) and
decimalsFn models serd_decimals (decimal.c, absent from the source tree),
returning the significant digits (as digit bytes) and their count/exponent.
A zero input short-circuits to a typed literal 0.0 or -0.0; NaN and
infinities fail; the finite path mirrors the digit/zero assembly of the
source. -/
def serd_new_decimal (orderFn : Nat → Int)
    (decimalsFn : Nat → Nat → SerdDecimalCount × List Byte)
    (d : SerdDouble) (maxPrecision maxFracDigits : Nat)
    (datatype : Option SerdNode) : Option SerdNode :=
  let type := datatype.getD serd_xsd_decimal
  match d with
  | .zero neg =>
    if neg then serd_new_typed_literal (strBytes "-0.0") (some type)
    else serd_new_typed_literal (strBytes "0.0") (some type)
  | .nan => none
  | .inf _ => none
  | .finite neg mag =>
    let precision : Nat :=
      if maxFracDigits ≠ 0 then
        let required : Int := (maxFracDigits : Int) + orderFn mag
        (min (maxPrecision : Int) (max 0 required)).toNat
      else maxPrecision
    if precision = 0 then serd_new_typed_literal (strBytes "0.0") (some type)
    else
      let cd := decimalsFn mag precision
      let c := cd.1
      let digits := cd.2
      let m := get_decimal_metrics c
      let sign : List Byte := if neg then [0x2D] else []
      let text : List Byte :=
        match m.pointLoc with
        | .after =>
          sign ++ digits.take m.nDigits ++ List.replicate m.nZerosBefore 0x30
            ++ [0x2E, 0x30]
        | .before =>
          sign ++ [0x30, 0x2E] ++ List.replicate m.nZerosAfter 0x30
            ++ digits.take m.nDigits
        | .between =>
          let nBefore := (c.expt + 1).toNat
          let nAfter :=
            if maxFracDigits ≠ 0 then min maxFracDigits (m.nDigits - nBefore)
            else m.nDigits - nBefore
          sign ++ digits.take nBefore ++ [0x2E]
            ++ (digits.drop nBefore).take nAfter
      some (.mk .literal text { noFlags with hasDatatype := true } (some type))

/-- ASCII letter test (is_alpha of string_utils.h). -/
def isAlphaB (b : Byte) : Bool :=
  (0x41 ≤ b && b ≤ 0x5A) || (0x61 ≤ b && b ≤ 0x7A)

/-- ASCII digit test (is_digit of string_utils.h). -/
def isDigitB (b : Byte) : Bool :=
  0x30 ≤ b && b ≤ 0x39

/-- is_windows_path (string_utils.h, absent from the source tree; modelled
from the spec's drive-letter handling): an ASCII letter, a colon, and then a
slash, a backslash, or the end of the string. -/
def is_windows_path (p : List Byte) : Bool :=
  match p with
  | a :: 0x3A :: rest =>
    isAlphaB a &&
      (match rest with
       | [] => true
       | c :: _ => c = 0x2F || c = 0x5C)
  | _ => false

/-- is_uri_path_char of src/node.c lines 463 to 481: unreserved characters,
colon, at, slash, and the sub-delims. -/
def is_uri_path_char (b : Byte) : Bool :=
  isAlphaB b || isDigitB b ||
    (b = 0x2D || b = 0x2E || b = 0x5F || b = 0x7E ||
     b = 0x3A || b = 0x40 || b = 0x2F ||
     b = 0x21 || b = 0x24 || b = 0x26 || b = 0x27 || b = 0x28 || b = 0x29 ||
     b = 0x2A || b = 0x2B || b = 0x2C || b = 0x3B || b = 0x3D)

/-- One uppercase hexadecimal digit byte. -/
def hexDigitU (n : Nat) : Byte :=
  if n < 10 then 0x30 + n else 0x37 + n

/-- The digit loop for uppercase hexadecimal, structurally recursive on a
fuel bound (the value itself bounds the number of digits, since v / 16 < v
for positive v). -/
def hexUpperGo : Nat → Nat → List Byte
  | 0, _ => []
  | f + 1, v =>
    if v = 0 then [] else hexUpperGo f (v / 16) ++ [hexDigitU (v % 16)]

/-- The digits printf %X would produce for a value: its uppercase
hexadecimal digits, most significant first, just 0 for zero. -/
def hexUpper (v : Nat) : List Byte :=
  if v = 0 then [0x30] else hexUpperGo (v + 1) v

/-- The three bytes that src/node.c lines 508 to 513 append for a byte that
needs escaping: the percent sign, then the result of
snprintf(escape_str + 1, 3, "%X", value) which writes at most two digits and
a NUL terminator into the escape buffer, of which exactly three bytes are
then pushed to the sink.  For values below 0x10 this is one digit followed by
a stray NUL byte. -/
def fileUriEscape (v : Nat) : List Byte :=
  let h := hexUpper v
  0x25 :: (h.take 2 ++ List.replicate (2 - min 2 h.length) 0)

/-- serd_new_file_uri of src/node.c lines 483 to 522.  The byte values of the
path are used directly in the escape (the (unsigned) cast of the source read
on a platform with unsigned char); the final buffer is cut at the first NUL
byte because serd_new_uri measures it with strlen. -/
def serd_new_file_uri (path : List Byte) (hostname : Option (List Byte)) :
    Option SerdNode :=
  let evil := is_windows_path path
  let head : List Byte :=
    if path.headD 0 = 0x2F || evil then
      strBytes "file://" ++ hostname.getD [] ++ (if evil then [0x2F] else [])
    else []
  let body : List Byte :=
    (path.map (fun b =>
      if evil && b = 0x5C then [0x2F]
      else if b = 0x25 then [0x25, 0x25]
      else if is_uri_path_char b then [b]
      else fileUriEscape b)).flatten
  let uriBytes := (head ++ body).takeWhile (fun b => b ≠ 0)
  serd_new_simple_node .uri uriBytes

/-- A namespace environment (struct SerdEnvImpl of src/env.c): the ordered
prefix table as (name node, URI node) pairs, and the optional base URI
node. -/
structure SerdEnvM where
  prefixes : List (SerdNode × SerdNode)
  base : Option SerdNode

/-- The scan loop of serd_env_qualify_in_place (src/env.c lines 218 to 231):
walk the prefix table in order and return the first entry whose URI text is
a byte-prefix of the target text, together with the residual suffix bytes. -/
def qualifyScan : List (SerdNode × SerdNode) → SerdNode →
    Option (SerdNode × List Byte)
  | [], _ => none
  | (name, puri) :: rest, uri =>
    if puri.text.length ≤ uri.text.length ∧
        uri.text.take puri.text.length = puri.text then
      some (name, uri.text.drop puri.text.length)
    else qualifyScan rest uri

/-- serd_env_qualify_in_place of src/env.c lines 208 to 233 (the null
environment case does not arise in the value model). -/
def serd_env_qualify_in_place (env : SerdEnvM) (uri : SerdNode) :
    Option (SerdNode × List Byte) :=
  qualifyScan env.prefixes uri

/-- serd_env_qualify of src/env.c lines 250 to 269: on a hit, a CURIE node
whose text is the prefix name, a colon, and the suffix, with zero flags. -/
def serd_env_qualify (env : SerdEnvM) (uri : SerdNode) : Option SerdNode :=
  match serd_env_qualify_in_place env uri with
  | some (name, sfx) =>
    some (.mk .curie (name.text ++ [0x3A] ++ sfx) noFlags none)
  | none => none

/-- serd_env_find of src/env.c lines 149 to 163: the first prefix entry whose
name has the given bytes. -/
def serd_env_find (env : SerdEnvM) (name : List Byte) :
    Option (SerdNode × SerdNode) :=
  env.prefixes.find? (fun pr => pr.1.text.length = name.length &&
    decide (pr.1.text = name))

/-- serd_env_expand_in_place of src/env.c lines 271 to 297: split the CURIE
text at the first colon, look the name up, and return the (namespace URI
bytes, local suffix bytes) pair.  The two distinct failure statuses
(BAD_ARG for a non-CURIE or colonless node, BAD_CURIE for an unknown name)
are collapsed to none, which is how the flat writer treats them. -/
def serd_env_expand_in_place (env : SerdEnvM) (curie : SerdNode) :
    Option (List Byte × List Byte) :=
  if curie.type ≠ .curie then none
  else
    match curie.text.findIdx? (fun b => b = 0x3A) with
    | none => none
    | some i =>
      match serd_env_find env (curie.text.take i) with
      | some pr => some (pr.2.text, curie.text.drop (i + 1))
      | none => none

/-- is_name of src/writer.c lines 487 to 497: the writer's validity test for
a prefixed-name suffix (conservatively, ASCII letters and digits only). -/
def is_name (s : List Byte) : Bool :=
  s.all (fun b => isAlphaB b || isDigitB b)

/-- An interned node reference inside a statement store.  The store interns
every node, so distinct identifiers denote distinct node values and the
total order of serd_node_compare on the underlying nodes is represented by
the order of the identifiers.  The identifier 0 stands for the null pointer
(absent graph, or a pattern wildcard). -/
abbrev NodeId := Nat

/-- serd_node_compare on two interned node references (0 = null): null
equals null and precedes everything, and distinct identifiers order by
identifier. -/
def cmpId (a b : NodeId) : Int :=
  if a = b then 0 else if a < b then -1 else 1

/-- serd_node_wildcard_compare of src/node.h lines 51 to 55: a null side
matches anything. -/
def wildcardCmpId (a b : NodeId) : Int :=
  if a = 0 || b = 0 then 0 else cmpId a b

/-- A statement cursor (cursor.h, absent from the source tree; modelled from
the spec: a document node with 1-based line and column). -/
structure SerdCursorM where
  file : NodeId
  line : Nat
  col : Nat
deriving DecidableEq, Repr

/-- A statement (statement.h, absent from the source tree; modelled from the
spec and its use in src/model.c: four node references in S, P, O, G order
plus an optional cursor). -/
structure SerdStatementM where
  s : NodeId
  p : NodeId
  o : NodeId
  g : NodeId
  cursor : Option SerdCursorM
deriving DecidableEq, Repr

/-- Field access by SerdField value (the nodes array of the statement). -/
def SerdStatementM.field (t : SerdStatementM) : Nat → NodeId
  | 0 => t.s
  | 1 => t.p
  | 2 => t.o
  | _ => t.g

/-- serd_statement_equals (statement.c, absent from the source tree; modelled
from the spec: statements are equal when all four nodes are equal, the
cursor is not compared). -/
def serd_statement_equals (a b : SerdStatementM) : Bool :=
  a.s = b.s && a.p = b.p && a.o = b.o && a.g = b.g

/-- The orderings table (model.h, mirrored from the SerdOrder enum used by
src/model.c): field permutations for SPO, SOP, OPS, OSP, PSO, POS and the
graph-first variants GSPO, GSOP, GOPS, GOSP, GPSO, GPOS. -/
def orderings : List (List Nat) :=
  [[0, 1, 2, 3], [0, 2, 1, 3], [2, 1, 0, 3], [2, 0, 1, 3],
   [1, 0, 2, 3], [1, 2, 0, 3],
   [3, 0, 1, 2], [3, 0, 2, 1], [3, 2, 1, 0], [3, 2, 0, 1],
   [3, 1, 0, 2], [3, 1, 2, 0]]

/-- The loop of serd_triple_compare of src/model.c lines 43 to 61: walk the
ordering and compare the non-graph fields with wildcard matching. -/
def tripleCmpLoop (ord : List Nat) (x y : SerdStatementM) : Int :=
  match ord with
  | [] => 0
  | o :: rest =>
    if o ≠ 3 then
      let c := wildcardCmpId (x.field o) (y.field o)
      if c ≠ 0 then c else tripleCmpLoop rest x y
    else tripleCmpLoop rest x y

/-- serd_triple_compare of src/model.c lines 43 to 61. -/
def serd_triple_compare (ord : List Nat) (x y : SerdStatementM) : Int :=
  tripleCmpLoop ord x y

/-- serd_quad_compare of src/model.c lines 66 to 77: exact (non-wildcard)
graph comparison first, then the triple comparison. -/
def serd_quad_compare (ord : List Nat) (x y : SerdStatementM) : Int :=
  let c := cmpId x.g y.g
  if c ≠ 0 then c else serd_triple_compare ord x y

/-- The comparator attached to index number i when the model is built
(src/model.c lines 198 to 214): triple comparison for the six triple
orderings, quad comparison for the six graph orderings. -/
def indexCmp (i : Nat) (x y : SerdStatementM) : Int :=
  if i < 6 then serd_triple_compare (orderings.getD i []) x y
  else serd_quad_compare (orderings.getD i []) x y

/-- Sorted insertion before the first element that compares greater. -/
def insertSorted (cmp : SerdStatementM → SerdStatementM → Int)
    (x : SerdStatementM) : List SerdStatementM → List SerdStatementM
  | [] => [x]
  | y :: ys => if cmp x y < 0 then x :: y :: ys else y :: insertSorted cmp x ys

/-- zix_btree_insert (zix, an external library; modelled from its contract:
insertion into a sorted set indexed by the comparator, which fails exactly
when an element comparing equal to the new one is already present). -/
def zix_btree_insert (cmp : SerdStatementM → SerdStatementM → Int)
    (l : List SerdStatementM) (x : SerdStatementM) :
    Option (List SerdStatementM) :=
  if l.any (fun y => cmp x y = 0) then none else some (insertSorted cmp x l)

/-- A statement store (struct SerdModelImpl, model.h being absent its fields
are taken from their uses in src/model.c): one optional sorted list per
ordering (none = index not enabled), and the version counter. -/
structure SerdModelM where
  indices : List (Option (List SerdStatementM))
  version : Nat
deriving Repr

/-- The model flags of serd_model_new, one bit per triple ordering plus the
graphs bit (SerdModelFlag of serd.h; the cursors bit is irrelevant here). -/
structure SerdModelFlagsM where
  spo : Bool
  sop : Bool
  ops : Bool
  osp : Bool
  pso : Bool
  pos : Bool
  graphs : Bool
deriving DecidableEq, Repr

/-- serd_model_new of src/model.c lines 188 to 224: the SPO index is forced
on, each selected triple ordering gets an index, and with the graphs flag
each selected ordering also gets its graph-first twin. -/
def serd_model_new (f : SerdModelFlagsM) : SerdModelM :=
  let bits := [true, f.sop, f.ops, f.osp, f.pso, f.pos]
  { indices :=
      bits.map (fun b => if b then some [] else none) ++
        bits.map (fun b => if b && f.graphs then some [] else none)
  , version := 0 }

/-- The index list of a model at a position (null when disabled or out of
range). -/
def SerdModelM.idx (m : SerdModelM) (i : Nat) :
    Option (List SerdStatementM) :=
  m.indices.getD i none

/-- The SPO index content of a model (the mandatory index). -/
def spoIndex (m : SerdModelM) : List SerdStatementM :=
  (m.idx 0).getD []

/-- The insertion loop of serd_model_add_internal (src/model.c lines 556 to
565): try to insert the statement into every enabled index in order; the
sticky added flag records whether any insertion succeeded, and a duplicate in
the GSPO index breaks out of the loop. -/
def addLoop (stmt : SerdStatementM) :
    Nat → Bool → List (Option (List SerdStatementM)) →
    Bool × List (Option (List SerdStatementM))
  | _, added, [] => (added, [])
  | i, added, none :: rest =>
    let r := addLoop stmt (i + 1) added rest
    (r.1, none :: r.2)
  | i, added, some idx :: rest =>
    match zix_btree_insert (indexCmp i) idx stmt with
    | some idx2 =>
      let r := addLoop stmt (i + 1) true rest
      (r.1, some idx2 :: r.2)
    | none =>
      if i = 6 then (added, some idx :: rest)
      else
        let r := addLoop stmt (i + 1) added rest
        (r.1, some idx :: r.2)

/-- serd_model_intern_cursor of src/model.c lines 525 to 538 (a value copy in
the model). -/
def serd_model_intern_cursor (c : Option SerdCursorM) : Option SerdCursorM :=
  c

/-- serd_model_add_internal of src/model.c lines 540 to 574: build the
statement, insert it into every enabled index, bump the version counter
unconditionally, and return success if any index accepted it, else drop the
statement and report the non-fatal failure status. -/
def serd_model_add_internal (m : SerdModelM) (cursor : Option SerdCursorM)
    (s p o g : NodeId) : SerdStatus × SerdModelM :=
  let stmt : SerdStatementM :=
    { s := s, p := p, o := o, g := g
    , cursor := serd_model_intern_cursor cursor }
  let r := addLoop stmt 0 false m.indices
  let m2 : SerdModelM := { indices := r.2, version := m.version + 1 }
  if r.1 then (.success, m2) else (.failure, m2)

/-- serd_model_add of src/model.c lines 576 to 595: reject a null subject,
predicate or object, then intern the nodes (the identity on interned
references) and add with no cursor. -/
def serd_model_add (m : SerdModelM) (s p o g : NodeId) :
    SerdStatus × SerdModelM :=
  if s = 0 || p = 0 || o = 0 then (.errBadArg, m)
  else serd_model_add_internal m none s p o g

/-- serd_node_pattern_match of src/node.h lines 57 to 61 on interned
references: a null side matches anything. -/
def patternMatchId (a b : NodeId) : Bool :=
  a = 0 || b = 0 || a = b

/-- serd_statement_matches_quad (statement.c, absent from the source tree;
modelled from the spec: every concrete pattern field must match). -/
def serd_statement_matches_quad (t : SerdStatementM) (pat : SerdStatementM) :
    Bool :=
  patternMatchId t.s pat.s && patternMatchId t.p pat.p &&
    patternMatchId t.o pat.o && patternMatchId t.g pat.g

/-- Search modes (the SearchMode enum of model.h, taken from its uses in
src/model.c). -/
inductive SearchMode where
  | all
  | range
  | filterRange
  | filterAll
deriving DecidableEq, Repr

/-- serd_model_has_index of src/model.c lines 84 to 96, as a function: the
possibly graph-shifted order, the incremented range-prefix length, and
whether that index is enabled.  The n_prefix increment happens on every call,
mirroring the C in-out parameter. -/
def serd_model_has_index (m : SerdModelM) (order nPfx : Nat)
    (graphs : Bool) : Nat × Nat × Bool :=
  let o := if graphs then order + 6 else order
  let np := if graphs then nPfx + 1 else nPfx
  (o, np, (m.idx o).isSome)

/-- The double availability check of serd_model_best_index (src/model.c
lines 151 to 158 and 169 to 176): try the first candidate ordering, then the
second, threading the n_prefix accumulator through both calls. -/
def checkIndexPair (m : SerdModelM) (graphs : Bool)
    (cand : Nat × Nat × Nat) : Option (Nat × Nat) :=
  let r0 := serd_model_has_index m cand.1 cand.2.2 graphs
  if r0.2.2 then some (r0.1, r0.2.1)
  else
    let r1 := serd_model_has_index m cand.2.1 r0.2.1 graphs
    if r1.2.2 then some (r1.1, r1.2.1) else none

/-- serd_model_best_index of src/model.c lines 105 to 186: returns the chosen
order number, the iteration mode, and the bound prefix length.  The candidate
tables are those of the PAT_CASE rows of the source. -/
def serd_model_best_index (m : SerdModelM) (s p o g : NodeId) :
    Nat × SearchMode × Nat :=
  let graphSearch := g ≠ 0
  if s = 0 ∧ p = 0 ∧ o = 0 then (6, .range, 1)
  else if s ≠ 0 ∧ p ≠ 0 ∧ o ≠ 0 then
    if graphSearch then (6, .range, 4) else (0, .range, 3)
  else
    let rangeCand : Nat × Nat × Nat :=
      if s = 0 ∧ p = 0 then (2, 3, 1)        -- 0x001: OPS, OSP
      else if s = 0 ∧ o = 0 then (5, 4, 1)   -- 0x010: POS, PSO
      else if s = 0 then (2, 5, 2)           -- 0x011: OPS, POS
      else if p = 0 ∧ o = 0 then (0, 1, 1)   -- 0x100: SPO, SOP
      else if o = 0 then (0, 4, 2)           -- 0x110: SPO, PSO
      else (1, 3, 2)                         -- 0x101: SOP, OSP
    match checkIndexPair m graphSearch rangeCand with
    | some r => (r.1, .range, r.2)
    | none =>
      let frCand : Option (Nat × Nat × Nat) :=
        if s = 0 ∧ p ≠ 0 ∧ o ≠ 0 then some (3, 4, 1)       -- 0x011: OSP, PSO
        else if s ≠ 0 ∧ p = 0 ∧ o ≠ 0 then some (0, 2, 1)  -- 0x101: SPO, OPS
        else none
      match frCand.bind (checkIndexPair m graphSearch) with
      | some r => (r.1, .filterRange, r.2)
      | none =>
        if graphSearch then (6, .filterRange, 1) else (0, .filterAll, 0)

/-- The prefix-only search pattern built by serd_model_find for
FILTER_RANGE mode (src/model.c lines 399 to 403). -/
def prefixPattern (ord : List Nat) (nPfx : Nat) (pat : SerdStatementM) :
    SerdStatementM :=
  let keep := ord.take nPfx
  { s := if keep.contains 0 then pat.s else 0
  , p := if keep.contains 1 then pat.p else 0
  , o := if keep.contains 2 then pat.o else 0
  , g := if keep.contains 3 then pat.g else 0
  , cursor := none }

/-- An iterator over a model (struct SerdIterImpl; iter.h being absent the
fields are taken from their uses in src/model.c): the rest of the chosen
index from the cursor position on, the pattern, the order, mode, prefix
length, and the version captured at creation. -/
structure SerdIterM where
  current : List SerdStatementM
  pat : SerdStatementM
  order : Nat
  mode : SearchMode
  nPfx : Nat
  version : Nat
deriving Repr

/-- serd_iter_new (iter.c, absent from the source tree; modelled from the
spec: in the filtering modes the iterator seeks forward to the first
statement matching the pattern, in the range modes the cursor is used as
is). -/
def serd_iter_new (m : SerdModelM) (cur : List SerdStatementM)
    (pat : SerdStatementM) (order : Nat) (mode : SearchMode) (nPfx : Nat) :
    SerdIterM :=
  let cur2 :=
    if mode = .filterRange ∨ mode = .filterAll then
      cur.dropWhile (fun t => ¬ serd_statement_matches_quad t pat)
    else cur
  { current := cur2, pat := pat, order := order, mode := mode
  , nPfx := nPfx, version := m.version }

/-- serd_model_begin of src/model.c lines 347 to 358: an all-mode iterator
over the GSPO index when present, else the SPO index. -/
def serd_model_begin (m : SerdModelM) : SerdIterM :=
  let order := if (m.idx 6).isSome then 6 else 0
  { current := (m.idx order).getD []
  , pat := { s := 0, p := 0, o := 0, g := 0, cursor := none }
  , order := order, mode := .all, nPfx := 0, version := m.version }

/-- zix_btree_lower_bound (zix, an external library; modelled from its
contract on a sorted sequence: the earliest position whose element is not
less than the key under the tree's comparator). -/
def zix_btree_lower_bound (cmp : SerdStatementM → SerdStatementM → Int)
    (l : List SerdStatementM) (key : SerdStatementM) :
    List SerdStatementM :=
  l.dropWhile (fun e => cmp e key < 0)

/-- serd_model_find of src/model.c lines 373 to 422. -/
def serd_model_find (m : SerdModelM) (s p o g : NodeId) : Option SerdIterM :=
  let pat : SerdStatementM := { s := s, p := p, o := o, g := g, cursor := none }
  if s = 0 ∧ p = 0 ∧ o = 0 ∧ g = 0 then some (serd_model_begin m)
  else
    let r := serd_model_best_index m s p o g
    let order := r.1
    let mode := r.2.1
    let nPfx := r.2.2
    let db := (m.idx order).getD []
    let cur :=
      if mode = .filterAll then db
      else if mode = .filterRange then
        zix_btree_lower_bound (indexCmp order) db
          (prefixPattern (orderings.getD order []) nPfx pat)
      else zix_btree_lower_bound (indexCmp order) db pat
    match cur with
    | [] => none
    | key :: _ =>
      if mode = .range ∧ ¬ serd_statement_matches_quad key pat then none
      else some (serd_iter_new m cur pat order mode nPfx)

/-- serd_iter_get (iter.c, absent from the source tree: the statement at the
cursor). -/
def serd_iter_get (it : SerdIterM) : Option SerdStatementM :=
  it.current.head?

/-- The number 1 for a concrete (non-null) pattern field, 0 otherwise; the
(bool)s casts of src/model.c line 479. -/
def boolNat (b : Bool) : Nat :=
  if b then 1 else 0

/-- serd_model_get_statement of src/model.c lines 472 to 492: unless exactly
two of S, P, O are concrete or exactly three of S, P, O, G are concrete,
return null; otherwise return the statement under the iterator found for the
pattern, if any. -/
def serd_model_get_statement (m : SerdModelM) (s p o g : NodeId) :
    Option SerdStatementM :=
  if boolNat (s ≠ 0) + boolNat (p ≠ 0) + boolNat (o ≠ 0) ≠ 2 ∧
      boolNat (s ≠ 0) + boolNat (p ≠ 0) + boolNat (o ≠ 0) + boolNat (g ≠ 0)
        ≠ 3 then
    none
  else
    match serd_model_find m s p o g with
    | some it => serd_iter_get it
    | none => none

/-- serd_model_get of src/model.c lines 447 to 470: the node filling the
first null field of the pattern in the statement found by
serd_model_get_statement, or null. -/
def serd_model_get (m : SerdModelM) (s p o g : NodeId) : Option NodeId :=
  match serd_model_get_statement m s p o g with
  | some t =>
    if s = 0 then some t.s
    else if p = 0 then some t.p
    else if o = 0 then some t.o
    else if g = 0 then some t.g
    else none
  | none => none

/-- The store invariant of the specification (section 3.6): the model has
its twelve index slots, every statement present in the SPO index is present
in every enabled index, and its subject, predicate and object references are
non-null. -/
def modelWellFormed (m : SerdModelM) : Prop :=
  m.indices.length = 12 ∧
    ∀ t ∈ spoIndex m,
      (t.s ≠ 0 ∧ t.p ≠ 0 ∧ t.o ≠ 0) ∧
        ∀ i < 12, ∀ idx, m.idx i = some idx → t ∈ idx

/-- The well-formedness test is decidable, so witnesses can be checked by
evaluation. -/
instance (m : SerdModelM) : Decidable (modelWellFormed m) := by
  unfold modelWellFormed
  infer_instance

/-- uri_must_escape of src/writer.c lines 201 to 211: the characters escaped
inside angle-quoted IRIs, plus everything outside printable ASCII. -/
def uri_must_escape (b : Byte) : Bool :=
  b = 0x20 || b = 0x22 || b = 0x3C || b = 0x3E || b = 0x5C ||
    b = 0x5E || b = 0x60 || b = 0x7B || b = 0x7C || b = 0x7D ||
    !(0x20 ≤ b && b ≤ 0x7E)

/-- utf8_num_bytes (string_utils.h, absent from the source tree; modelled
from the UTF-8 leading-byte classes the spec's lexical grammar relies on). -/
def utf8NumBytes (b : Byte) : Nat :=
  if b &&& 0x80 = 0 then 1
  else if b &&& 0xE0 = 0xC0 then 2
  else if b &&& 0xF0 = 0xE0 then 3
  else if b &&& 0xF8 = 0xF0 then 4
  else 0

/-- parse_utf8_char's code-point accumulation (string_utils.h, absent from
the source tree): mask the leading byte and fold in six payload bits per
continuation byte; bytes past the end of the buffer read as the NUL
padding. -/
def parseUtf8Cp (bytes : List Byte) (size : Nat) : Nat :=
  let c0 := bytes.getD 0 0 &&& ((1 <<< (8 - size)) - 1)
  (List.range (size - 1)).foldl
    (fun c i => (c <<< 6) ||| (bytes.getD (i + 1) 0 &&& 0x3F)) c0

/-- The UTF-8 bytes of the replacement character U+FFFD (replacement_char of
string_utils.h). -/
def replacementChar : List Byte := [0xEF, 0xBF, 0xBD]

/-- Fixed-width uppercase hexadecimal digits, most significant first (the
%04X and %08X conversions of write_character). -/
def hexPad (width : Nat) (v : Nat) : List Byte :=
  (List.range width).reverse.map (fun i => hexDigitU ((v >>> (4 * i)) &&& 0xF))

/-- A backslash-u escape with four hex digits. -/
def uEscape4 (c : Nat) : List Byte :=
  [0x5C, 0x75] ++ hexPad 4 c

/-- A backslash-U escape with eight hex digits. -/
def uEscape8 (c : Nat) : List Byte :=
  [0x5C, 0x55] ++ hexPad 8 c

/-- write_character of src/writer.c lines 170 to 199: returns the bytes
emitted and the number of input bytes consumed (0 for an invalid leading
byte, which emits the replacement character; 1 for a non-printable ASCII
byte, escaped; a full UTF-8 sequence otherwise, raw unless the ASCII style
is on). -/
def writeCharacter (ascii : Bool) (bytes : List Byte) : List Byte × Nat :=
  let size := utf8NumBytes (bytes.headD 0)
  if size = 0 then (replacementChar, 0)
  else if size = 1 then (uEscape4 (bytes.headD 0), 1)
  else
    let c := parseUtf8Cp bytes size
    if !ascii then ((List.range size).map (fun i => bytes.getD i 0), size)
    else if c ≤ 0xFFFF then (uEscape4 c, size)
    else (uEscape8 c, size)

/-- The loop of write_uri, structurally recursive on a fuel bound: every
step consumes at least one input byte, so the input length bounds the number
of steps. -/
def writeUriLoop (ascii : Bool) : Nat → List Byte → List Byte
  | 0, _ => []
  | _ + 1, [] => []
  | f + 1, b :: rest =>
    if !uri_must_escape b then b :: writeUriLoop ascii f rest
    else
      let wc := writeCharacter ascii (b :: rest)
      if wc.2 = 0 then
        wc.1 ++ writeUriLoop ascii f (rest.dropWhile (fun x => 0x80 ≤ x))
      else wc.1 ++ writeUriLoop ascii f (rest.drop (wc.2 - 1))

/-- write_uri of src/writer.c lines 213 to 241: copy bytes until one must be
escaped, then emit it through write_character; on a corrupt character, skip
the following continuation bytes. -/
def writeUriBytes (ascii : Bool) (l : List Byte) : List Byte :=
  writeUriLoop ascii l.length l

/-- write_text of src/writer.c lines 297 to 364 in the WRITE_STRING context
for the flat syntaxes (the long-string context and the Turtle-only b and f
escapes are unreachable there): printable ASCII other than quote and
backslash is copied, the five short escapes are applied, and everything else
goes through write_character. -/
def writeTextLoop (ascii : Bool) : Nat → List Byte → List Byte
  | 0, _ => []
  | _ + 1, [] => []
  | f + 1, b :: rest =>
    if (0x20 ≤ b && b ≤ 0x7E) && b ≠ 0x5C && b ≠ 0x22 then
      b :: writeTextLoop ascii f rest
    else if b = 0x5C then 0x5C :: 0x5C :: writeTextLoop ascii f rest
    else if b = 0x0A then 0x5C :: 0x6E :: writeTextLoop ascii f rest
    else if b = 0x0D then 0x5C :: 0x72 :: writeTextLoop ascii f rest
    else if b = 0x09 then 0x5C :: 0x74 :: writeTextLoop ascii f rest
    else if b = 0x22 then 0x5C :: 0x22 :: writeTextLoop ascii f rest
    else
      let wc := writeCharacter ascii (b :: rest)
      if wc.2 = 0 then
        wc.1 ++ writeTextLoop ascii f (rest.dropWhile (fun x => 0x80 ≤ x))
      else wc.1 ++ writeTextLoop ascii f (rest.drop (wc.2 - 1))

/-- The loop above with the fuel set to the input length, which every step
decreases by at least one consumed byte. -/
def writeTextString (ascii : Bool) (l : List Byte) : List Byte :=
  writeTextLoop ascii l.length l

/-- The scheme tail scan of serd_uri_string_has_scheme (uri.c, absent from
the source tree; modelled from the spec: letters, digits, plus, minus and
dot up to a colon). -/
def schemeRest : List Byte → Bool
  | [] => false
  | b :: rest =>
    if b = 0x3A then true
    else if isAlphaB b || isDigitB b || b = 0x2B || b = 0x2D || b = 0x2E then
      schemeRest rest
    else false

/-- serd_uri_string_has_scheme (uri.c, absent from the source tree; modelled
from the spec: an ASCII letter, then letters, digits, plus, minus or dot,
then a colon). -/
def serd_uri_string_has_scheme (l : List Byte) : Bool :=
  match l with
  | [] => false
  | b :: rest => isAlphaB b && schemeRest rest

/-- The two flat line-based output syntaxes (SERD_NTRIPLES and
SERD_NQUADS). -/
inductive FlatSyn where
  | ntriples
  | nquads
deriving DecidableEq, Repr

/-- The statement field being written (SerdField, with an extra case for the
(SerdField)-1 cast used when a literal's datatype is written). -/
inductive SerdFieldM where
  | subjectF
  | predicateF
  | objectF
  | graphF
  | metaF
deriving DecidableEq, Repr

/-- The writer state consulted by the flat-syntax statement path of
src/writer.c: the syntax, the SERD_STYLE_ASCII and SERD_STYLE_RESOLVED style
bits, the environment, and the blank-prefix chop string (empty = unset).
For the resolved style, resolveAbs models the missing uri.c collaborators
(parse, resolve against the parsed base, and serialise the absolute form,
which is what lines 542 to 556 do when the syntax is flat): it maps the
environment's base text and a node's text to the serialised absolute URI
bytes, and its output is escaped through write_uri like any other URI
text.  The context stack, indentation and separator state of the writer are
not read on this path, which is what makes flat output independent of
preceding statements. -/
structure SerdWriterFlatCfg where
  flat : FlatSyn
  ascii : Bool
  resolved : Bool
  env : SerdEnvM
  bpfx : List Byte
  resolveAbs : Option (List Byte) → List Byte → List Byte

/-- is_resource of src/writer.c lines 676 to 680: any node kind whose enum
value exceeds SERD_LITERAL. -/
def is_resource (n : SerdNode) : Bool :=
  n.type.val > 1

/-- write_node of src/writer.c restricted to the flat syntaxes (where
supports_abbrev and supports_uriref are false and is_inline_start never
holds): returns whether the node was written and the bytes emitted.
URI nodes (write_uri_node, lines 499 to 566): fail on a schemeless URI with
no environment base; otherwise angle quotes around the escaped text, the
text being first resolved against the base when the SERD_STYLE_RESOLVED bit
is set (for the flat syntaxes the resolved branch always serialises the
absolute form).  CURIE nodes (write_curie, lines 568 to 609): expanded
through the environment into angle quotes, failing on an unknown name.
Blank nodes (write_blank, lines 611 to 649): an underscore-colon label with
the chop-prefix stripped.  Literals (write_literal, lines 438 to 484): the
quoted escaped body with an at-language or caret-caret-datatype tail, the
datatype being written as a node itself. -/
def writeNodeFlat (cfg : SerdWriterFlatCfg) :
    SerdNode → SerdFieldM → Bool × List Byte
  | .mk t x f mta, field =>
    match t with
    | .literal =>
      let body := [0x22] ++ writeTextString cfg.ascii x ++ [0x22]
      (match mta with
       | some mnode =>
         if f.hasLanguage then (true, body ++ [0x40] ++ mnode.text)
         else if f.hasDatatype then
           let r := writeNodeFlat cfg mnode .metaF
           (r.1, body ++ [0x5E, 0x5E] ++ r.2)
         else (true, body)
       | none => (true, body))
    | .uri =>
      let hasScheme := serd_uri_string_has_scheme x
      if !hasScheme && cfg.env.base.isNone then (false, [])
      else
        let inner :=
          if cfg.resolved then
            writeUriBytes cfg.ascii
              (cfg.resolveAbs (cfg.env.base.map SerdNode.text) x)
          else writeUriBytes cfg.ascii x
        (true, [0x3C] ++ inner ++ [0x3E])
    | .curie =>
      match serd_env_expand_in_place cfg.env (.mk t x f mta) with
      | none => (false, [])
      | some pr =>
        (true, [0x3C] ++ writeUriBytes cfg.ascii pr.1
          ++ writeUriBytes cfg.ascii pr.2 ++ [0x3E])
    | .blank =>
      let label :=
        if cfg.bpfx ≠ [] ∧ x.take cfg.bpfx.length = cfg.bpfx then
          x.drop cfg.bpfx.length
        else x
      (true, [0x5F, 0x3A] ++ label)

/-- A statement as the writer receives it: four node values, the graph
optional. -/
structure SerdStatementN where
  subject : SerdNode
  predicate : SerdNode
  object : SerdNode
  graph : Option SerdNode

/-- The graph chunk of the flat statement line (src/writer.c lines 734 to
737): only the quad syntax writes a present graph, preceded by a space. -/
def flatGraphChunk (cfg : SerdWriterFlatCfg) (st : SerdStatementN) :
    Bool × List Byte :=
  match cfg.flat, st.graph with
  | .nquads, some gn =>
    let r := writeNodeFlat cfg gn .graphF
    (r.1, [0x20] ++ r.2)
  | _, _ => (true, [])

/-- serd_writer_write_statement of src/writer.c lines 707 to 740: the
argument guard (subject and predicate must be resources) followed by the
flat-syntax branch, which emits subject, space, predicate, space, object,
the optional graph chunk, and the closing space-dot-newline, stopping with
SERD_ERR_UNKNOWN after whatever bytes were already emitted if a node fails
to write.  This branch returns before the context comparison and update, so
its output never depends on previously written statements. -/
def serd_writer_write_statement_flat (cfg : SerdWriterFlatCfg)
    (st : SerdStatementN) : SerdStatus × List Byte :=
  if !(is_resource st.subject && is_resource st.predicate) then
    (.errBadArg, [])
  else
    let rs := writeNodeFlat cfg st.subject .subjectF
    if !rs.1 then (.errUnknown, rs.2)
    else
      let rp := writeNodeFlat cfg st.predicate .predicateF
      if !rp.1 then (.errUnknown, rs.2 ++ [0x20] ++ rp.2)
      else
        let ro := writeNodeFlat cfg st.object .objectF
        if !ro.1 then (.errUnknown, rs.2 ++ [0x20] ++ rp.2 ++ [0x20] ++ ro.2)
        else
          let rg := flatGraphChunk cfg st
          if !rg.1 then
            (.errUnknown,
              rs.2 ++ [0x20] ++ rp.2 ++ [0x20] ++ ro.2 ++ rg.2)
          else
            (.success,
              rs.2 ++ [0x20] ++ rp.2 ++ [0x20] ++ ro.2 ++ rg.2
                ++ [0x20, 0x2E, 0x0A])

/-- A byte source (struct SerdByteSource; byte_source.h being absent from
the source tree, modelled from the spec's byte-source contract: the bytes
not yet consumed, the EOF and prepared flags, and the 1-based cursor.
Reading at the end of the pending bytes sees the NUL with which the source
buffer is terminated). -/
structure SerdByteSourceM where
  pending : List Byte
  eof : Bool
  prepared : Bool
  line : Nat
  col : Nat
deriving Repr

/-- peek_byte of src/reader.h lines 102 to 108: EOF (none) once the source
is exhausted, otherwise the byte at the read head (the NUL terminator when
the pending bytes have run out). -/
def peek_byte (src : SerdByteSourceM) : Option Byte :=
  if src.eof then none else some (src.pending.headD 0)

/-- serd_byte_source_advance (byte_source.h, absent from the source tree;
modelled from the spec: the cursor line advances on a line feed and the
column otherwise, one byte is consumed, and consuming past the end is the
short read that signals EOF with the non-fatal failure status). -/
def serd_byte_source_advance (src : SerdByteSourceM) :
    SerdStatus × SerdByteSourceM :=
  let b := src.pending.headD 0
  let src1 :=
    if b = 0x0A then { src with line := src.line + 1, col := 1 }
    else { src with col := src.col + 1 }
  match src1.pending with
  | [] => (.failure, { src1 with eof := true })
  | _ :: rest => (.success, { src1 with pending := rest })

/-- eat_byte_safe of src/reader.h lines 110 to 120: advance past the current
byte, discarding the status. -/
def eat_byte_safe (src : SerdByteSourceM) : SerdByteSourceM :=
  (serd_byte_source_advance src).2

/-- skip_bom of src/reader.c lines 230 to 245: skip a UTF-8 byte order mark,
failing with bad syntax if it is corrupt. -/
def skip_bom (src : SerdByteSourceM) : SerdStatus × SerdByteSourceM :=
  if peek_byte src = some 0xEF then
    let s1 := eat_byte_safe src
    if peek_byte s1 ≠ some 0xBB then (.errBadSyn, s1)
    else
      let r1 := serd_byte_source_advance s1
      if r1.1 ≠ .success then (.errBadSyn, r1.2)
      else if peek_byte r1.2 ≠ some 0xBF then (.errBadSyn, r1.2)
      else
        let r2 := serd_byte_source_advance r1.2
        if r2.1 ≠ .success then (.errBadSyn, r2.2)
        else (.success, r2.2)
  else (.success, src)

/-- serd_byte_source_prepare of src/byte_source.c lines 159 to 171 for an
in-memory source: mark it prepared (paging is already materialised in the
pending byte list). -/
def serd_byte_source_prepare (src : SerdByteSourceM) :
    SerdStatus × SerdByteSourceM :=
  (.success, { src with prepared := true })

/-- serd_reader_prepare of src/reader.c lines 298 to 310: prepare the source
and skip a byte order mark; a failure status marks EOF. -/
def serd_reader_prepare (src : SerdByteSourceM) :
    SerdStatus × SerdByteSourceM :=
  let r := serd_byte_source_prepare src
  if r.1 = .success then skip_bom r.2
  else if r.1 = .failure then (r.1, { r.2 with eof := true })
  else r

/-- serd_reader_read_chunk of src/reader.c lines 312 to 328.  The statement
parser it hands control to (read_statement, which forwards to
read_n3_statement of n3.c) is the readStatement parameter, a function from
the source state to a status, the list of events emitted, and the new state;
the theorem over this definition holds for every such parser.  The prelude
prepares an unprepared source (or re-advances at EOF), silently consumes one
leading NUL byte, and emits no events of its own. -/
def serd_reader_read_chunk {E : Type}
    (readStatement : SerdByteSourceM → SerdStatus × List E × SerdByteSourceM)
    (src : SerdByteSourceM) : SerdStatus × List E × SerdByteSourceM :=
  let r :=
    if !src.prepared then serd_reader_prepare src
    else if src.eof then serd_byte_source_advance src
    else (.success, src)
  let s2 := if peek_byte r.2 = some 0 then eat_byte_safe r.2 else r.2
  if r.1 ≠ .success then (r.1, [], s2) else readStatement s2

/-- A store with only the mandatory SPO index (the minimal flags of
serd_model_new), used as a concrete test store. -/
def modelW0 : SerdModelM :=
  serd_model_new
    { spo := true, sop := false, ops := false, osp := false
    , pso := false, pos := false, graphs := false }

/-- The test store after one successful add of the statement (1, 2, 3). -/
def modelW1 : SerdModelM :=
  (serd_model_add modelW0 1 2 3 0).2

/-- A plain NTriples writer configuration with an empty environment (the
resolved style is off, so the resolver collaborator is never consulted). -/
def cfgC2 : SerdWriterFlatCfg :=
  { flat := .ntriples, ascii := false, resolved := false
  , env := { prefixes := [], base := none }, bpfx := []
  , resolveAbs := fun _ t => t }

/-- A statement whose blank subject label contains a line feed byte
(the label a, line feed, b), with plain URI predicate and object. -/
def stC2 : SerdStatementN :=
  { subject := .mk .blank [0x61, 0x0A, 0x62] noFlags none
  , predicate := .mk .uri (strBytes "http://p") noFlags none
  , object := .mk .uri (strBytes "http://o") noFlags none
  , graph := none }

/-- A plain NQuads writer configuration with an empty environment. -/
def cfgW2 : SerdWriterFlatCfg :=
  { flat := .nquads, ascii := false, resolved := false
  , env := { prefixes := [], base := none }, bpfx := []
  , resolveAbs := fun _ t => t }

/-- A well-behaved quad of absolute URIs. -/
def stW2 : SerdStatementN :=
  { subject := .mk .uri (strBytes "http://s") noFlags none
  , predicate := .mk .uri (strBytes "http://p") noFlags none
  , object := .mk .uri (strBytes "http://o") noFlags none
  , graph := some (.mk .uri (strBytes "http://g") noFlags none) }

/-- An environment binding the single name eg to http://example.org/ (the
binding of the qualify test in test/test_env.c). -/
def envC3 : SerdEnvM :=
  { prefixes :=
      [(.mk .literal (strBytes "eg") noFlags none,
        .mk .uri (strBytes "http://example.org/") noFlags none)]
  , base := none }

/-- A URI under that namespace whose residual suffix contains a space byte,
so the suffix is not a valid prefixed-name local part. -/
def uriC3 : SerdNode :=
  .mk .uri (strBytes "http://example.org/a b") noFlags none

/-- A constant order collaborator for the decimal witness. -/
def orderW : Nat → Int := fun _ => 1

/-- A constant digit collaborator for the decimal witness (one digit 1 with
exponent 0). -/
def decimalsW : Nat → Nat → SerdDecimalCount × List Byte :=
  fun _ _ => ({ count := 1, expt := 0 }, [0x31])

/-- A prepared, non-EOF byte source whose pending input starts with a NUL
byte followed by the byte A. -/
def srcW8 : SerdByteSourceM :=
  { pending := [0, 0x41], eof := false, prepared := true, line := 1, col := 1 }

/-- A trivial statement parser for the read-chunk witness: it succeeds
without events and leaves the source unchanged. -/
def parseW8 : SerdByteSourceM → SerdStatus × List Unit × SerdByteSourceM :=
  fun s => (.success, [], s)

theorem lexCompare_self (x : List Byte) : lexCompare x x = 0 := by
  induction x with
  | nil => rfl
  | cons a as ih => simp [lexCompare, ih]

theorem compareNode_self : ∀ n : SerdNode, compareNode n n = 0 := by
  intro n
  generalize hk : sizeOf n = k
  induction k using Nat.strong_induction_on generalizing n with
  | _ k ih =>
    cases n with
    | mk t x f m =>
      cases m with
      | none => simp [compareNode, lexCompare_self]
      | some a =>
        have hlt : sizeOf a < k := by
          subst hk
          simp
          omega
        simp [compareNode, lexCompare_self, ih _ hlt a rfl]

theorem nodeBEq_refl : ∀ n : SerdNode, nodeBEq n n = true := by
  intro n
  generalize hk : sizeOf n = k
  induction k using Nat.strong_induction_on generalizing n with
  | _ k ih =>
    cases n with
    | mk t x f m =>
      cases m with
      | none => simp [nodeBEq]
      | some a =>
        have hlt : sizeOf a < k := by
          subst hk
          simp
          omega
        simp [nodeBEq, ih _ hlt a rfl]

/-- Claim C5: for every node, the copy compares equal to the original under
serd_node_equals, and serd_node_compare of a node with its copy is zero. -/
theorem node_copy_equal_and_compare_zero (n : SerdNode) :
    serd_node_equals (some n) (some (serd_node_copy n)) = true ∧
      serd_node_compare (some n) (some (serd_node_copy n)) = 0 :=
  ⟨nodeBEq_refl n, compareNode_self n⟩

/-- Claim C4: serd_new_literal rejects a simultaneous datatype and language
unless the datatype is rdf:langString, and with a single meta present it
builds a literal carrying exactly that meta. -/
theorem literal_meta_exclusion (s d l : List Byte) :
    (d ≠ nsRdfLangString → serd_new_literal s (some d) (some l) = none) ∧
      (∃ n, serd_new_literal s none (some l) = some n ∧
        (serd_node_language n).map SerdNode.text = some l ∧
        serd_node_datatype n = none) ∧
      (∃ n, serd_new_literal s (some d) none = some n ∧
        (serd_node_datatype n).map SerdNode.text = some d ∧
        serd_node_language n = none) := by
  refine ⟨fun hd => ?_,
    ⟨serd_new_plain_literal_i s (scanFlags s) l, ?_, ?_, ?_⟩,
    ⟨serd_new_typed_literal_i s (scanFlags s) d, ?_, ?_, ?_⟩⟩
  · simp [serd_new_literal, hd]
  · simp [serd_new_literal]
  · simp [serd_new_plain_literal_i, serd_node_language, SerdNode.flags,
      SerdNode.meta, SerdNode.text]
  · simp [serd_new_plain_literal_i, serd_node_datatype, SerdNode.flags,
      scanFlags]
  · simp [serd_new_literal]
  · simp [serd_new_typed_literal_i, serd_node_datatype, SerdNode.flags,
      SerdNode.meta, SerdNode.text]
  · simp [serd_new_typed_literal_i, serd_node_language, SerdNode.flags,
      scanFlags]

/-- Witness for claim C4 at a concrete input: a datatype other than
rdf:langString together with a language makes the constructor fail. -/
theorem literal_meta_exclusion_w :
    serd_new_literal (strBytes "x") (some (strBytes "http://dt"))
      (some (strBytes "en")) = none :=
  (literal_meta_exclusion (strBytes "x") (strBytes "http://dt")
    (strBytes "en")).1 (by decide)

/-- Claim C6: the decimal constructor fails for NaN and infinities, and for
positive and negative zero it produces literals with the exact texts 0.0 and
-0.0 (for any digit collaborators, bounds, and a well-formed or default
datatype). -/
theorem decimal_nan_inf_zero (orderFn : Nat → Int)
    (decimalsFn : Nat → Nat → SerdDecimalCount × List Byte)
    (maxP maxF : Nat) (dt : Option SerdNode)
    (hdt : dt = none ∨
      ∃ d, dt = some d ∧ d.type = .uri ∧ d.text ≠ nsRdfLangString) :
    serd_new_decimal orderFn decimalsFn .nan maxP maxF dt = none ∧
      (∀ ng, serd_new_decimal orderFn decimalsFn (.inf ng) maxP maxF dt
        = none) ∧
      (∃ n, serd_new_decimal orderFn decimalsFn (.zero false) maxP maxF dt
        = some n ∧ n.text = strBytes "0.0") ∧
      (∃ n, serd_new_decimal orderFn decimalsFn (.zero true) maxP maxF dt
        = some n ∧ n.text = strBytes "-0.0") := by
  obtain ⟨ty, hty, htyU, htyL⟩ :
      ∃ ty, dt.getD serd_xsd_decimal = ty ∧ ty.type = .uri ∧
        ty.text ≠ nsRdfLangString := by
    rcases hdt with h | ⟨d, hd, h1, h2⟩
    · exact ⟨serd_xsd_decimal, by simp [h], by decide, by decide⟩
    · exact ⟨d, by simp [hd], h1, h2⟩
  refine ⟨rfl, fun ng => rfl, ?_, ?_⟩
  · refine ⟨serd_new_typed_literal_i (strBytes "0.0")
      (scanFlags (strBytes "0.0")) ty.text, ?_, ?_⟩
    · simp [serd_new_decimal, hty, serd_new_typed_literal, htyU, htyL]
    · simp [serd_new_typed_literal_i, SerdNode.text]
  · refine ⟨serd_new_typed_literal_i (strBytes "-0.0")
      (scanFlags (strBytes "-0.0")) ty.text, ?_, ?_⟩
    · simp [serd_new_decimal, hty, serd_new_typed_literal, htyU, htyL]
    · simp [serd_new_typed_literal_i, SerdNode.text]

/-- Witness for claim C6 at concrete inputs: the default datatype, the
constant collaborators, NaN and negative infinity fail, and the two zeros
print as 0.0 and -0.0. -/
theorem decimal_nan_inf_zero_w :
    serd_new_decimal orderW decimalsW .nan 17 0 none = none ∧
      serd_new_decimal orderW decimalsW (.inf false) 17 0 none = none ∧
      (serd_new_decimal orderW decimalsW (.zero false) 17 0 none).map
        SerdNode.text = some (strBytes "0.0") ∧
      (serd_new_decimal orderW decimalsW (.zero true) 17 0 none).map
        SerdNode.text = some (strBytes "-0.0") := by
  have h := decimal_nan_inf_zero orderW decimalsW 17 0 none (Or.inl rfl)
  refine ⟨h.1, h.2.1 false, ?_, ?_⟩
  · obtain ⟨n, hn, ht⟩ := h.2.2.1
    rw [hn]
    simp [ht]
  · obtain ⟨n, hn, ht⟩ := h.2.2.2
    rw [hn]
    simp [ht]

/-- Claim C7: the file-URI constructor encodes the space in /tmp/a b as %20
as the specification requires, but a byte below 0x10 (here the tab in the
path /a tab b) is emitted as a single hex digit followed by a stray NUL
byte, which truncates the node text to file:///a%9 instead of the
specified file:///a%09b. -/
theorem file_uri_escape_bug_outputs :
    (serd_new_file_uri (strBytes "/tmp/a b") none).map SerdNode.text =
      some (strBytes "file:///tmp/a%20b") ∧
      (serd_new_file_uri [0x2F, 0x61, 0x09, 0x62] none).map SerdNode.text =
        some (strBytes "file:///a%9") := by
  decide

/-- Counterexample to claim C3 as stated: with the single binding eg to
http://example.org/, qualifying http://example.org/a b returns the CURIE
eg:a b even though the residual suffix a b (which contains a space) is not a
valid local name by the code's own test is_name; the claim requires none
here since no prefix has a valid residual local name. -/
theorem env_qualify_no_local_name_check :
    (serd_env_qualify envC3 uriC3).isSome = true ∧
      (serd_env_qualify envC3 uriC3).map SerdNode.text =
        some (strBytes "eg:a b") ∧
      (serd_env_qualify_in_place envC3 uriC3).map Prod.snd =
        some (strBytes "a b") ∧
      is_name (strBytes "a b") = false := by
  decide

theorem qualifyScan_eq_find (uri : SerdNode) :
    ∀ l : List (SerdNode × SerdNode), qualifyScan l uri =
      (l.find? (fun pr => pr.2.text.length ≤ uri.text.length &&
          decide (uri.text.take pr.2.text.length = pr.2.text))).map
        (fun pr => (pr.1, uri.text.drop pr.2.text.length)) := by
  intro l
  induction l with
  | nil => rfl
  | cons hd tl ih =>
    obtain ⟨name, puri⟩ := hd
    by_cases h1 : puri.text.length ≤ uri.text.length
    · by_cases h2 : uri.text.take puri.text.length = puri.text
      · simp [qualifyScan, List.find?, h1, h2]
      · simp [qualifyScan, List.find?, h1, h2, ih]
    · simp [qualifyScan, List.find?, h1, ih]

/-- Claim C3 as amended: qualify scans the prefix list in order and returns
the CURIE built from the first prefix whose IRI is a byte-prefix of the
target (no validity check is made on the residual suffix); with no such
prefix it returns none. -/
theorem env_qualify_first_byte_match (env : SerdEnvM) (uri : SerdNode) :
    serd_env_qualify env uri =
      (env.prefixes.find? (fun pr => pr.2.text.length ≤ uri.text.length &&
          decide (uri.text.take pr.2.text.length = pr.2.text))).map
        (fun pr => SerdNode.mk .curie
          (pr.1.text ++ [0x3A] ++ uri.text.drop pr.2.text.length)
          noFlags none) := by
  unfold serd_env_qualify serd_env_qualify_in_place
  rw [qualifyScan_eq_find]
  cases env.prefixes.find? (fun pr => pr.2.text.length ≤ uri.text.length
      && decide (uri.text.take pr.2.text.length = pr.2.text)) with
  | none => rfl
  | some pr => rfl

/-- Counterexample to claim C2 as stated: an NTriples writer given a
statement whose blank subject label contains a line feed emits that byte
verbatim, reports success, and the output spans two lines instead of
exactly one. -/
theorem flat_writer_blank_label_two_lines :
    (serd_writer_write_statement_flat cfgC2 stC2).1 = .success ∧
      (serd_writer_write_statement_flat cfgC2 stC2).2 =
        strBytes "_:a" ++ [0x0A] ++ strBytes "b <http://p> <http://o> ."
          ++ [0x0A] ∧
      (serd_writer_write_statement_flat cfgC2 stC2).2.count 0x0A = 2 := by
  decide

/-- Claim C2 as amended: for every flat-syntax writer configuration and
every statement whose nodes all write successfully, the flat branch emits
exactly the subject bytes, a space, the predicate bytes, a space, the object
bytes, the graph chunk (a space and the graph bytes, only in NQuads with a
graph present), and the terminating space, dot, newline; the output is a
function of the configuration and statement only (never abbreviated against
earlier statements), and it is exactly one line whenever the serialised node
forms contain no newline byte (literal bodies and IRIs are escaped, but
blank labels and language tags are emitted verbatim). -/
theorem flat_statement_line_shape (cfg : SerdWriterFlatCfg)
    (st : SerdStatementN) (bS bP bO bG : List Byte)
    (hres : (is_resource st.subject && is_resource st.predicate) = true)
    (hS : writeNodeFlat cfg st.subject .subjectF = (true, bS))
    (hP : writeNodeFlat cfg st.predicate .predicateF = (true, bP))
    (hO : writeNodeFlat cfg st.object .objectF = (true, bO))
    (hG : flatGraphChunk cfg st = (true, bG)) :
    serd_writer_write_statement_flat cfg st =
      (.success,
        bS ++ [0x20] ++ bP ++ [0x20] ++ bO ++ bG ++ [0x20, 0x2E, 0x0A]) ∧
      (bS.count 0x0A = 0 → bP.count 0x0A = 0 → bO.count 0x0A = 0 →
        bG.count 0x0A = 0 →
        (serd_writer_write_statement_flat cfg st).2.count 0x0A = 1) := by
  have h1 : serd_writer_write_statement_flat cfg st =
      (.success,
        bS ++ [0x20] ++ bP ++ [0x20] ++ bO ++ bG ++ [0x20, 0x2E, 0x0A]) := by
    unfold serd_writer_write_statement_flat
    rw [hres, hS, hP, hO, hG]
    simp
  refine ⟨h1, fun c1 c2 c3 c4 => ?_⟩
  rw [h1]
  simp [List.count_append, c1, c2, c3, c4]

/-- Witness for the amended claim C2 at a concrete input: an NQuads writer
with four plain absolute URIs emits the single expected line. -/
theorem flat_statement_line_shape_w :
    serd_writer_write_statement_flat cfgW2 stW2 =
      (.success,
        strBytes "<http://s>" ++ [0x20] ++ strBytes "<http://p>" ++ [0x20]
          ++ strBytes "<http://o>" ++ ([0x20] ++ strBytes "<http://g>")
          ++ [0x20, 0x2E, 0x0A]) ∧
      (serd_writer_write_statement_flat cfgW2 stW2).2.count 0x0A = 1 := by
  have h := flat_statement_line_shape cfgW2 stW2
    (strBytes "<http://s>") (strBytes "<http://p>") (strBytes "<http://o>")
    ([0x20] ++ strBytes "<http://g>")
    (by decide) (by decide) (by decide) (by decide) (by decide)
  exact ⟨h.1, h.2 (by decide) (by decide) (by decide) (by decide)⟩

theorem wildcardCmpId_self (a : NodeId) : wildcardCmpId a a = 0 := by
  simp [wildcardCmpId, cmpId]

theorem tripleCmpLoop_eq_zero (x y : SerdStatementM)
    (h : ∀ o2, x.field o2 = y.field o2) :
    ∀ ord, tripleCmpLoop ord x y = 0 := by
  intro ord
  induction ord with
  | nil => rfl
  | cons o2 rest ih =>
    simp [tripleCmpLoop, h o2, wildcardCmpId_self, ih]

theorem indexCmp_eq_zero (i : Nat) (x y : SerdStatementM)
    (h : ∀ o2, x.field o2 = y.field o2) : indexCmp i x y = 0 := by
  have hg : x.g = y.g := h 3
  unfold indexCmp serd_quad_compare serd_triple_compare
  split
  · exact tripleCmpLoop_eq_zero x y h _
  · simp [cmpId, hg, tripleCmpLoop_eq_zero x y h]

theorem addLoop_all_dup (stmt : SerdStatementM) :
    ∀ (ls : List (Option (List SerdStatementM))) (k : Nat),
      (∀ j idx, ls.getD j none = some idx →
        ∃ y ∈ idx, indexCmp (k + j) stmt y = 0) →
      addLoop stmt k false ls = (false, ls) := by
  intro ls
  induction ls with
  | nil => intro k h; rfl
  | cons hd tl ih =>
    intro k h
    cases hd with
    | none =>
      have hrec := ih (k + 1) (fun j idx hj => by
        have hh := h (j + 1) idx (by simpa using hj)
        simpa [Nat.add_assoc, Nat.add_comm 1 j] using hh)
      simp [addLoop, hrec]
    | some idx =>
      obtain ⟨y, hy, hcmp⟩ := h 0 idx rfl
      have hfail : zix_btree_insert (indexCmp k) idx stmt = none := by
        have hany : idx.any (fun y2 => decide (indexCmp k stmt y2 = 0))
            = true := by
          rw [List.any_eq_true]
          exact ⟨y, hy, by simpa using hcmp⟩
        simp [zix_btree_insert, hany]
      by_cases hk : k = 6
      · subst hk
        simp [addLoop, hfail]
      · have hrec := ih (k + 1) (fun j idx2 hj => by
          have hh := h (j + 1) idx2 (by simpa using hj)
          simpa [Nat.add_assoc, Nat.add_comm 1 j] using hh)
        simp [addLoop, hfail, hk, hrec]

/-- Claim C1: adding a statement whose equal statement is already present in
the SPO index of a well-formed store returns the non-fatal failure status
and leaves every index (hence the statement set) unchanged. -/
theorem model_add_duplicate_is_noop (m : SerdModelM) (s p o g : NodeId)
    (hwf : modelWellFormed m)
    (hdup : ∃ t ∈ spoIndex m,
      serd_statement_equals t ⟨s, p, o, g, none⟩ = true) :
    (serd_model_add_internal m none s p o g).1 = .failure ∧
      (serd_model_add_internal m none s p o g).2.indices = m.indices := by
  obtain ⟨hlen, hinv⟩ := hwf
  obtain ⟨t, ht, heq⟩ := hdup
  have heq2 : t.s = s ∧ t.p = p ∧ t.o = o ∧ t.g = g := by
    unfold serd_statement_equals at heq
    simp only [Bool.and_eq_true, decide_eq_true_eq] at heq
    exact ⟨heq.1.1.1, heq.1.1.2, heq.1.2, heq.2⟩
  have hfields : ∀ o2,
      (SerdStatementM.mk s p o g none).field o2 = t.field o2 := by
    intro o2
    match o2 with
    | 0 => exact heq2.1.symm
    | 1 => exact heq2.2.1.symm
    | 2 => exact heq2.2.2.1.symm
    | (n + 3) => exact heq2.2.2.2.symm
  have hprop : ∀ j idx, m.indices.getD j none = some idx →
      ∃ y ∈ idx, indexCmp (0 + j) (SerdStatementM.mk s p o g none) y = 0 := by
    intro j idx hj
    have hj12 : j < 12 := by
      by_contra hge
      push_neg at hge
      rw [List.getD_eq_default] at hj
      · exact Option.noConfusion hj
      · omega
    refine ⟨t, (hinv t ht).2 j hj12 idx hj, ?_⟩
    exact indexCmp_eq_zero (0 + j) (SerdStatementM.mk s p o g none) t hfields
  have hloop := addLoop_all_dup (SerdStatementM.mk s p o g none)
    m.indices 0 hprop
  constructor
  · unfold serd_model_add_internal
    simp [serd_model_intern_cursor, hloop]
  · unfold serd_model_add_internal
    simp [serd_model_intern_cursor, hloop]

/-- Witness for claim C1 at a concrete input: re-adding the statement
(1, 2, 3) to the store that already holds it fails and changes no index. -/
theorem model_add_duplicate_is_noop_w :
    (serd_model_add_internal modelW1 none 1 2 3 0).1 = .failure ∧
      (serd_model_add_internal modelW1 none 1 2 3 0).2.indices =
        modelW1.indices :=
  model_add_duplicate_is_noop modelW1 1 2 3 0 (by decide)
    ⟨⟨1, 2, 3, 0, none⟩, by decide, by decide⟩

/-- Claim C9: every call of the internal add operation, including one that
returns the failure status for a duplicate, increments the store version by
exactly one (which is what invalidates existing iterators). -/
theorem add_internal_version_increment (m : SerdModelM)
    (cursor : Option SerdCursorM) (s p o g : NodeId) :
    (serd_model_add_internal m cursor s p o g).2.version = m.version + 1 := by
  simp only [serd_model_add_internal]
  split <;> rfl

/-- Claim C10: when neither exactly two of subject, predicate, object nor
exactly three of subject, predicate, object, graph are concrete,
serd_model_get_statement returns none regardless of the store contents, and
serd_model_get (defined through it) returns none as well. -/
theorem get_statement_arity_guard (m : SerdModelM) (s p o g : NodeId)
    (h2 : boolNat (s ≠ 0) + boolNat (p ≠ 0) + boolNat (o ≠ 0) ≠ 2)
    (h3 : boolNat (s ≠ 0) + boolNat (p ≠ 0) + boolNat (o ≠ 0)
      + boolNat (g ≠ 0) ≠ 3) :
    serd_model_get_statement m s p o g = none ∧
      serd_model_get m s p o g = none := by
  have hgs : serd_model_get_statement m s p o g = none := by
    unfold serd_model_get_statement
    exact if_pos ⟨h2, h3⟩
  refine ⟨hgs, ?_⟩
  unfold serd_model_get
  simp [hgs]

/-- Witness for claim C10 at a concrete input: a pattern with a single
concrete field returns none even though the store holds a statement. -/
theorem get_statement_arity_guard_w :
    serd_model_get_statement modelW1 1 0 0 0 = none ∧
      serd_model_get modelW1 1 0 0 0 = none :=
  get_statement_arity_guard modelW1 1 0 0 0 (by decide) (by decide)

/-- Claim C8: when a prepared, non-EOF source starts with a NUL byte,
read_chunk consumes exactly that byte (advancing the column), reports no
error and emits no event of its own, and hands the rest of the input to the
statement parser unchanged, for every parser. -/
theorem read_chunk_skips_leading_null {E : Type}
    (f : SerdByteSourceM → SerdStatus × List E × SerdByteSourceM)
    (src : SerdByteSourceM)
    (hp : src.prepared = true) (he : src.eof = false)
    (h0 : peek_byte src = some 0) :
    serd_reader_read_chunk f src = f (eat_byte_safe src) ∧
      (eat_byte_safe src).pending = src.pending.tail ∧
      (eat_byte_safe src).line = src.line ∧
      (eat_byte_safe src).col = src.col + 1 := by
  have hb : src.pending.headD 0 = 0 := by
    unfold peek_byte at h0
    rw [he] at h0
    simpa using h0
  constructor
  · unfold serd_reader_read_chunk
    rw [hp, he]
    simp [h0, eat_byte_safe]
  · unfold eat_byte_safe serd_byte_source_advance
    rw [hb]
    cases hpend : src.pending with
    | nil => simp [hpend]
    | cons b2 rest => simp [hpend]

/-- Witness for claim C8 at a concrete input: the source holding a NUL byte
then the byte A, with the trivial parser. -/
theorem read_chunk_skips_leading_null_w :
    serd_reader_read_chunk parseW8 srcW8 = parseW8 (eat_byte_safe srcW8) ∧
      (eat_byte_safe srcW8).pending = srcW8.pending.tail ∧
      (eat_byte_safe srcW8).line = srcW8.line ∧
      (eat_byte_safe srcW8).col = srcW8.col + 1 :=
  read_chunk_skips_leading_null parseW8 srcW8 rfl rfl rfl
